import Mathlib

/-!
Verification of the Reddit-MCP tool layer (`src/mcp_reddit/reddit_fetcher.py`).

The Python module is shallowly embedded: the external redditwarp client is
modelled as explicit response values and strategy functions (an absent API
attribute path is `none`, i.e. an `AttributeError` on access), Python
exceptions are the `PyErr` type, Python `Optional[str]` is `Option String`,
and each tool operation returns the result string together with the list of
messages passed to `logging.error` (its observable logging effect).
-/

/-- Python exceptions as far as the module distinguishes them: an
`AttributeError` (the capability-not-found condition driving the fallback
chain) versus any other exception; `msg` is `str(e)`. -/
inductive PyErr where
  | attributeError (msg : String)
  | other (msg : String)
deriving DecidableEq

/-- Embeds Python `str(e)` for a caught exception. -/
def errMsg : PyErr → String
  | .attributeError m => m
  | .other m => m

/-- The content variant of a fetched submission, by runtime type: redditwarp's
`LinkPost`, `TextPost` (with `body`), `GalleryPost` (with `gallery_link`,
kept as its `str()` image), or any other class. -/
inductive PostKind where
  | linkPost
  | textPost (body : String)
  | galleryPost (gallery_link : String)
  | unknownPost
deriving DecidableEq

/-- A fetched submission object, with the attributes the module reads.
`created_at` is the `strftime`-formatted creation time when the attribute is
present and truthy, `none` otherwise. -/
structure Submission where
  title : String
  subreddit_name : String
  score : Int
  comment_count : Nat
  created_at : Option String
  author_display_name : Option String
  permalink : String
  id36 : String
  kind : PostKind
deriving DecidableEq

/-- A comment object: the attributes read from a comment tree node value. -/
structure CommentData where
  author_display_name : Option String
  score : Int
  body : String
deriving DecidableEq

/-- A node of the fetched comment tree: a value plus its ordered children. -/
inductive CommentNode where
  | node (value : CommentData) (children : List CommentNode)

/-- The object returned by `client.p.comment_tree.fetch`: only its `children`
list is read. -/
structure CommentTree where
  children : List CommentNode

/-- Embeds the Python idiom `x or '[deleted]'` on an `Optional[str]`: both
`None` and the empty string are falsy. -/
def orDeleted : Option String → String
  | none => "[deleted]"
  | some s => if s = "" then "[deleted]" else s

/-- Embeds Python f-string interpolation of an `Optional[str]` value:
`None` is rendered as the four-character text `"None"`. -/
def pyStrOpt : Option String → String
  | none => "None"
  | some s => s

/-- Embeds `_get_post_type`: the `isinstance` chain over the closed set of
redditwarp submission classes, with `'unknown'` for anything else. -/
def get_post_type (s : Submission) : String :=
  match s.kind with
  | .linkPost => "link"
  | .textPost _ => "text"
  | .galleryPost _ => "gallery"
  | .unknownPost => "unknown"

/-- Embeds `_get_content`: `permalink` for a `LinkPost`, `body` for a
`TextPost`, `str(gallery_link)` for a `GalleryPost`, and Python `None`
(here `none`) otherwise. -/
def get_content (s : Submission) : Option String :=
  match s.kind with
  | .linkPost => some s.permalink
  | .textPost body => some body
  | .galleryPost g => some g
  | .unknownPost => none

/-- Embeds Python string repetition `s * n`. -/
def repeatStr (s : String) : Nat → String
  | 0 => ""
  | n + 1 => s ++ repeatStr s n

/-- The three lines a single comment contributes in `_format_comment_tree`,
with `indent = "-- " * depth`. -/
def commentBlock (c : CommentData) (depth : Nat) : String :=
  let indent := repeatStr "-- " depth
  indent ++ "* Author: " ++ orDeleted c.author_display_name ++ "\n" ++
  indent ++ "  Score: " ++ toString c.score ++ "\n" ++
  indent ++ "  " ++ c.body ++ "\n"

mutual
/-- Embeds `_format_comment_tree`: the node's own block, then, for each child
in order, a newline followed by the child rendered at `depth + 1`. -/
def format_comment_tree : CommentNode → Nat → String
  | .node c children, depth => commentBlock c depth ++ formatChildren children (depth + 1)
/-- Embeds the `for child in comment_node.children` loop of
`_format_comment_tree`: each child block is preceded by `"\n"`. -/
def formatChildren : List CommentNode → Nat → String
  | [], _ => ""
  | c :: cs, depth => "\n" ++ format_comment_tree c depth ++ formatChildren cs depth
end

/-- Embeds Python `sep.join(strings)`. -/
def joinSep (sep : String) : List String → String
  | [] => ""
  | [x] => x
  | x :: xs => x ++ sep ++ joinSep sep (xs)

/-- The optional `created_time` line of `fetch_user_latest_posts`: present
only when the submission has a (truthy) `created_at`. -/
def createdLine (p : Submission) : String :=
  match p.created_at with
  | none => ""
  | some t => "Posted: " ++ t ++ "\n"

/-- The `post_info` block built for one submission inside
`fetch_user_latest_posts` (lines 78-89 of the source). -/
def userPostBlock (p : Submission) : String :=
  "Title: " ++ p.title ++ "\n" ++
  "Subreddit: r/" ++ p.subreddit_name ++ "\n" ++
  "Score: " ++ toString p.score ++ "\n" ++
  "Comments: " ++ toString p.comment_count ++ "\n" ++
  createdLine p ++
  "Type: " ++ get_post_type p ++ "\n" ++
  "Content: " ++ pyStrOpt (get_content p) ++ "\n" ++
  "Link: https://reddit.com" ++ p.permalink ++ "\n" ++
  "Post ID: " ++ p.id36 ++ "\n" ++
  "---"

/-- The `post_info` block built for one submission inside
`fetch_reddit_hot_threads` (lines 118-127 of the source). -/
def hotBlock (p : Submission) : String :=
  "Title: " ++ p.title ++ "\n" ++
  "Score: " ++ toString p.score ++ "\n" ++
  "Comments: " ++ toString p.comment_count ++ "\n" ++
  "Author: " ++ orDeleted p.author_display_name ++ "\n" ++
  "Type: " ++ get_post_type p ++ "\n" ++
  "Content: " ++ pyStrOpt (get_content p) ++ "\n" ++
  "Link: https://reddit.com" ++ p.permalink ++ "\n" ++
  "---"

/-- The outcome of iterating a submissions iterator to the end: either the
yielded submissions, or the exception the (lazy, paginating) iteration
raised. -/
abbrev IterT := Except PyErr (List Submission)

/-- One of the guessed `client.p.user` / `client.p.account` access paths:
the three sort-specific callables, each taking `(username, limit)` and
either raising or returning an iterator. -/
structure SubmissionsPath where
  new : String → Nat → Except PyErr IterT
  hot : String → Nat → Except PyErr IterT
  top : String → Nat → Except PyErr IterT

/-- The `client.p.subreddit.pull.search` callable, applied to
`("all", query, sort, limit)`. -/
abbrev SearchFn := String → String → String → Nat → Except PyErr IterT

/-- The slice of the redditwarp client that `fetch_user_latest_posts`
touches. A `none` field means the attribute path does not exist, so
accessing it raises `AttributeError`. -/
structure RedditClient where
  user : Option SubmissionsPath
  account : Option SubmissionsPath
  search : Option SearchFn

/-- One result of a tool operation: the returned string together with the
messages passed to `logging.error` during the call. -/
abbrev OpResult := String × List String

/-- The error text and log entry produced by the outermost handler of
`fetch_user_latest_posts`. -/
def userErr (username : String) (e : PyErr) : OpResult :=
  ("An error occurred while fetching posts for " ++ username ++ ": " ++ errMsg e,
   ["An error occurred while fetching posts for " ++ username ++ ": " ++ errMsg e])

/-- The message returned when the search access path is also missing. -/
def unableMsg : String :=
  "Unable to access user posts API. RedditWarp API structure may have changed."

/-- Embeds one `try: if sort == ... except AttributeError: pass` block of
`fetch_user_latest_posts` (Method 1 and Method 2). With an unrecognized
`sort` no branch runs, so the client is never touched and `submission_iter`
stays `None`; an `AttributeError` (absent path, or raised by the call) is
swallowed; any other exception propagates. -/
def tryMethod (path : Option SubmissionsPath) (sort username : String) (limit : Nat) :
    Except PyErr (Option IterT) :=
  if sort = "new" then
    match path with
    | none => .ok none
    | some p =>
      match p.new username limit with
      | .error (.attributeError _) => .ok none
      | .error e => .error e
      | .ok it => .ok (some it)
  else if sort = "hot" then
    match path with
    | none => .ok none
    | some p =>
      match p.hot username limit with
      | .error (.attributeError _) => .ok none
      | .error e => .error e
      | .ok it => .ok (some it)
  else if sort = "top" then
    match path with
    | none => .ok none
    | some p =>
      match p.top username limit with
      | .error (.attributeError _) => .ok none
      | .error e => .error e
      | .ok it => .ok (some it)
  else .ok none

/-- Embeds lines 72-95 of the source, reached with an obtained iterator:
the `async for` loop building one `post_info` block per yielded submission
(iteration failures go to the outermost handler), the `no posts` fallback,
and the final header-plus-concatenation. -/
def renderUserPosts (username : String) (it : IterT) : OpResult :=
  match it with
  | .error e => userErr username e
  | .ok subs =>
    if subs.isEmpty then
      ("No posts found for user: " ++ username, [])
    else
      ("Latest " ++ toString subs.length ++ " posts from u/" ++ username ++ ":" ++ "\n\n" ++
         joinSep "\n\n" (subs.map userPostBlock), [])

/-- Embeds lines 69-95 of the source: the `if submission_iter is None`
check returning the invalid-sort text (its `none` branch), and otherwise
the rendering stage. -/
def afterStrategies (username sort : String) (si : Option IterT) : OpResult :=
  match si with
  | none => ("Invalid sort method: " ++ sort ++ ". Use 'new', 'hot', or 'top'.", [])
  | some it => renderUserPosts username it

/-- Embeds `fetch_user_latest_posts`: Method 1 (`client.p.user`), Method 2
(`client.p.account`, only if the iterator is still `None`), Method 3
(`client.p.subreddit.pull.search` with `author:<username>`, returning the
unable-message on `AttributeError`), then the final rendering; every
exception other than the swallowed `AttributeError`s reaches the outermost
`except Exception` handler, which logs and returns the error text. -/
def fetch_user_latest_posts (client : RedditClient) (username : String)
    (limit : Nat) (sort : String) : OpResult :=
  match tryMethod client.user sort username limit with
  | .error e => userErr username e
  | .ok si1 =>
    match (match si1 with
           | some it => Except.ok (some it)
           | none => tryMethod client.account sort username limit) with
    | .error e => userErr username e
    | .ok si2 =>
      match si2 with
      | some it => afterStrategies username sort (some it)
      | none =>
        match client.search with
        | none => (unableMsg, [])
        | some search =>
          match search "all" ("author:" ++ username) sort limit with
          | .error (.attributeError _) => (unableMsg, [])
          | .error e => userErr username e
          | .ok it => afterStrategies username sort (some it)

/-- Embeds `fetch_reddit_hot_threads`: a single fixed access path
(`client.p.subreddit.pull.hot(subreddit, limit)`, supplied here as the
call-plus-iteration outcome `hotFetch`), one block per submission joined by
blank lines, and an outermost handler that logs `"An error occurred: ..."`
(without the subreddit) and returns the same text. -/
def fetch_reddit_hot_threads (hotFetch : String → Nat → Except PyErr (List Submission))
    (subreddit : String) (limit : Nat) : OpResult :=
  match hotFetch subreddit limit with
  | .error e => ("An error occurred: " ++ errMsg e, ["An error occurred: " ++ errMsg e])
  | .ok subs => (joinSep "\n\n" (subs.map hotBlock), [])

/-- The fixed-field text for the submission part of
`fetch_reddit_post_content`. -/
def postContentHeader (submission : Submission) : String :=
  "Title: " ++ submission.title ++ "\n" ++
  "Score: " ++ toString submission.score ++ "\n" ++
  "Author: " ++ orDeleted submission.author_display_name ++ "\n" ++
  "Type: " ++ get_post_type submission ++ "\n" ++
  "Content: " ++ pyStrOpt (get_content submission) ++ "\n"

/-- Embeds `fetch_reddit_post_content`: fetch the submission by id, fetch
its comment tree (`sort='top'`, `limit=comment_limit`, `depth=comment_depth`),
render the header plus either the comment blocks (each top-level branch
formatted from depth 0) or `"No comments found."`; any exception is caught
and converted to `"An error occurred: ..."` without logging. -/
def fetch_reddit_post_content (fetchSub : String → Except PyErr Submission)
    (fetchTree : String → String → Nat → Nat → Except PyErr CommentTree)
    (post_id : String) (comment_limit : Nat) (comment_depth : Nat) : OpResult :=
  match fetchSub post_id with
  | .error e => ("An error occurred: " ++ errMsg e, [])
  | .ok submission =>
    match fetchTree post_id "top" comment_limit comment_depth with
    | .error e => ("An error occurred: " ++ errMsg e, [])
    | .ok comments =>
      match comments.children with
      | [] => (postContentHeader submission ++ "\nNo comments found.", [])
      | c :: cs =>
        (postContentHeader submission ++ "\nComments:\n" ++ formatChildren (c :: cs) 0, [])

/-- Embeds the credential loader: the list comprehension
`[x for x in [REDDIT_CLIENT_ID, REDDIT_CLIENT_SECRET, REDDIT_REFRESH_TOKEN] if x]`
over the three environment lookups (`none` = unset; the empty string is
falsy). -/
def CREDS (cid secret token : Option String) : List String :=
  [cid, secret, token].filterMap (fun x =>
    match x with
    | none => none
    | some s => if s = "" then none else some s)

/-- The external client constructor, opaque except for the positional
argument list it receives. -/
structure Client where
  creds : List String
deriving DecidableEq

/-- Embeds `client = Client(*CREDS)`. -/
def client (cid secret token : Option String) : Client :=
  Client.mk (CREDS cid secret token)

/-- The lines of a `fetch_reddit_hot_threads` block: title, score, comment
count, author, type, content, link, separator — no subreddit, no post id,
no creation time. -/
def hotBlockLines (p : Submission) : List (List Char) :=
  ["Title: ".data ++ p.title.data,
   "Score: ".data ++ (toString p.score).data,
   "Comments: ".data ++ (toString p.comment_count).data,
   "Author: ".data ++ (orDeleted p.author_display_name).data,
   "Type: ".data ++ (get_post_type p).data,
   "Content: ".data ++ (pyStrOpt (get_content p)).data,
   "Link: https://reddit.com".data ++ p.permalink.data,
   "---".data]

/-- The lines of a `fetch_user_latest_posts` block: title, subreddit,
score, comment count, optional posted time, type, content, link, post id,
separator. -/
def userPostLines (p : Submission) : List (List Char) :=
  ["Title: ".data ++ p.title.data,
   "Subreddit: r/".data ++ p.subreddit_name.data,
   "Score: ".data ++ (toString p.score).data,
   "Comments: ".data ++ (toString p.comment_count).data] ++
  (match p.created_at with
   | none => []
   | some t => ["Posted: ".data ++ t.data]) ++
  ["Type: ".data ++ (get_post_type p).data,
   "Content: ".data ++ (pyStrOpt (get_content p)).data,
   "Link: https://reddit.com".data ++ p.permalink.data,
   "Post ID: ".data ++ p.id36.data,
   "---".data]

mutual
/-- Modelled from the spec's words (4.4): render a node at depth `d` with a
line prefix of `d` repetitions of the marker; author (fallback
`[deleted]`), score, and body each on its own line; then each child at
depth `d + 1`, each child's block separated by a blank line. -/
def specCommentNode (marker : String) : CommentNode → Nat → String
  | .node c children, depth =>
    repeatStr marker depth ++ "* Author: " ++ orDeleted c.author_display_name ++ "\n" ++
    repeatStr marker depth ++ "  Score: " ++ toString c.score ++ "\n" ++
    repeatStr marker depth ++ "  " ++ c.body ++ "\n" ++
    specCommentChildren marker children (depth + 1)
/-- The children part of `specCommentNode`: a blank-line separator before
each child's block. -/
def specCommentChildren (marker : String) : List CommentNode → Nat → String
  | [], _ => ""
  | c :: cs, depth =>
    "\n" ++ specCommentNode marker c depth ++ specCommentChildren marker cs depth
end

/-- A concrete submission of an unrecognized content variant. -/
def exUnknown : Submission :=
  ⟨"T", "sub", 5, 2, none, some "alice", "/r/sub/x", "x1", PostKind.unknownPost⟩

/-- A concrete link-variant submission. -/
def exLink : Submission :=
  ⟨"L", "s", 1, 0, none, none, "/r/s/l", "l1", PostKind.linkPost⟩

/-- A concrete text-variant submission. -/
def exText : Submission :=
  ⟨"Hello", "test", 5, 2, none, some "alice", "/r/test/abc", "abc", PostKind.textPost "body text"⟩

/-- Splits a character list into its newline-separated lines (the lines do
not contain the separators; a trailing newline yields a final empty line). -/
def splitNl : List Char → List (List Char)
  | [] => [[]]
  | c :: cs =>
    if c = '\n' then [] :: splitNl cs
    else
      match splitNl cs with
      | [] => [[c]]
      | l :: ls => (c :: l) :: ls

/-- Joins lines with single newlines (inverse of `splitNl` on
newline-free lines). -/
def joinLines : List (List Char) → List Char
  | [] => []
  | [l] => l
  | l :: m :: ms => l ++ '\n' :: joinLines (m :: ms)

/-- Counts the lines that consist exactly of the three-character separator
`---`. -/
def countSepLines : List (List Char) → Nat
  | [] => 0
  | l :: ls => (if l = "---".data then 1 else 0) + countSepLines ls

/-- The number of lines of a string that are exactly `---`. -/
def sepLineCount (s : String) : Nat :=
  countSepLines (splitNl s.data)

/-- A string containing no newline character. -/
def nlFree (s : String) : Prop := ∀ c ∈ s.data, c ≠ '\n'

/-- Newline-freedom for an optional string (vacuous when absent). -/
def optNlFree : Option String → Prop
  | none => True
  | some s => nlFree s

/-- Well-formedness of a submission for line counting: every rendered field
is newline-free. -/
def subWF (p : Submission) : Prop :=
  nlFree p.title ∧ nlFree p.subreddit_name ∧ nlFree (toString p.score) ∧
  nlFree (toString p.comment_count) ∧ optNlFree p.created_at ∧
  nlFree (orDeleted p.author_display_name) ∧ nlFree (pyStrOpt (get_content p)) ∧
  nlFree p.permalink ∧ nlFree p.id36

/-- The sort values recognized by `fetch_user_latest_posts`. -/
def validSort (sort : String) : Prop :=
  sort = "new" ∨ sort = "hot" ∨ sort = "top"

/-- A strategy path whose three sort calls all produce the same outcome. -/
def constPath (r : Except PyErr IterT) : SubmissionsPath :=
  ⟨fun _ _ => r, fun _ _ => r, fun _ _ => r⟩

/-- A client whose `user` path exists and yields the given submissions for
every sort; the other paths are absent. -/
def mkUserClient (subs : List Submission) : RedditClient :=
  ⟨some (constPath (Except.ok (Except.ok subs))), none, none⟩

/-- A client shaped like the real redditwarp client: the `user` path and
the search path both exist and yield one concrete text submission. -/
def exFullClient : RedditClient :=
  ⟨some (constPath (Except.ok (Except.ok [exText]))),
   some (constPath (Except.ok (Except.ok [exText]))),
   some (fun _ _ _ _ => Except.ok (Except.ok [exText]))⟩

instance (s : String) : Decidable (nlFree s) :=
  inferInstanceAs (Decidable (∀ c ∈ s.data, c ≠ '\n'))

instance (o : Option String) : Decidable (optNlFree o) :=
  match o with
  | none => isTrue trivial
  | some t => inferInstanceAs (Decidable (nlFree t))

instance (p : Submission) : Decidable (subWF p) :=
  inferInstanceAs (Decidable (_ ∧ _ ∧ _ ∧ _ ∧ _ ∧ _ ∧ _ ∧ _ ∧ _))

instance (sort : String) : Decidable (validSort sort) :=
  inferInstanceAs (Decidable (_ ∨ _ ∨ _))

theorem splitNl_ne_nil : ∀ l : List Char, splitNl l ≠ []
  | [] => by simp [splitNl]
  | c :: cs => by
    simp only [splitNl]
    split
    · simp
    · cases h : splitNl cs <;> simp

/-- Splitting distributes over a newline: the lines of `xs ++ '\n' :: ys`
are the lines of `xs` followed by the lines of `ys`. -/
theorem splitNl_append_nl : ∀ xs ys : List Char,
    splitNl (xs ++ '\n' :: ys) = splitNl xs ++ splitNl ys := by
  intro xs
  induction xs with
  | nil => intro ys; simp [splitNl]
  | cons c cs ih =>
    intro ys
    by_cases hc : c = '\n'
    · subst hc
      simp [splitNl, ih ys]
    · cases h : splitNl cs with
      | nil => exact absurd h (splitNl_ne_nil cs)
      | cons l ls =>
        simp only [List.cons_append, splitNl, if_neg hc]
        rw [show (cs.append ('\n' :: ys)) = cs ++ '\n' :: ys from rfl, ih ys, h]
        simp

/-- A newline-free character list is a single line. -/
theorem splitNl_nlFree : ∀ xs : List Char, (∀ c ∈ xs, c ≠ '\n') →
    splitNl xs = [xs] := by
  intro xs
  induction xs with
  | nil => intro _; simp [splitNl]
  | cons c cs ih =>
    intro h
    have hc : c ≠ '\n' := h c (by simp)
    have hcs : ∀ x ∈ cs, x ≠ '\n' := fun x hx => h x (by simp [hx])
    simp only [splitNl, if_neg hc, ih hcs]

/-- `splitNl` recovers the lines joined by `joinLines` when every line is
newline-free. -/
theorem splitNl_joinLines : ∀ ls : List (List Char), ls ≠ [] →
    (∀ l ∈ ls, ∀ c ∈ l, c ≠ '\n') → splitNl (joinLines ls) = ls := by
  intro ls
  induction ls with
  | nil => intro h; exact absurd rfl h
  | cons l ls ih =>
    intro _ h
    cases ls with
    | nil => simp [joinLines, splitNl_nlFree l (h l (by simp))]
    | cons m ms =>
      have hl : ∀ c ∈ l, c ≠ '\n' := h l (by simp)
      have hrest : ∀ x ∈ m :: ms, ∀ c ∈ x, c ≠ '\n' := by
        intro x hx
        exact h x (by simp [hx])
      simp only [joinLines]
      rw [splitNl_append_nl, splitNl_nlFree l hl, ih (by simp) hrest]
      simp

theorem countSepLines_append : ∀ a b : List (List Char),
    countSepLines (a ++ b) = countSepLines a + countSepLines b := by
  intro a
  induction a with
  | nil => intro b; simp [countSepLines]
  | cons l ls ih => intro b; simp [countSepLines, ih b]; omega

/-- A line that starts with a character other than a dash is not the
separator line. -/
theorem line_ne_sep (c : Char) (l x : List Char) (hc : c ≠ '-') :
    (c :: l) ++ x ≠ "---".data := by
  intro h
  rw [List.cons_append] at h
  rw [show ("---".data : List Char) = '-' :: "--".data from rfl] at h
  injection h with h1 _
  exact hc h1

theorem nlData : "\n".data = ['\n'] := rfl

theorem nl2Data : "\n\n".data = ['\n', '\n'] := rfl

theorem colonData : ":".data = [':'] := rfl

theorem hotBlock_data (p : Submission) :
    (hotBlock p).data = joinLines (hotBlockLines p) := by
  simp [hotBlock, hotBlockLines, joinLines, String.data_append, nlData]

theorem userPostBlock_data (p : Submission) :
    (userPostBlock p).data = joinLines (userPostLines p) := by
  cases hc : p.created_at <;>
    simp [userPostBlock, userPostLines, createdLine, hc, joinLines,
      String.data_append, nlData]

theorem append_nlFree (a b : List Char) (ha : ∀ c ∈ a, c ≠ '\n')
    (hb : ∀ c ∈ b, c ≠ '\n') : ∀ c ∈ a ++ b, c ≠ '\n' := by
  intro c hc
  rcases List.mem_append.mp hc with h | h
  · exact ha c h
  · exact hb c h

theorem get_post_type_nlFree (p : Submission) :
    ∀ c ∈ (get_post_type p).data, c ≠ '\n' := by
  cases hk : p.kind <;> simp only [get_post_type, hk] <;> decide

theorem hotBlockLines_nlFree (p : Submission) (h : subWF p) :
    ∀ l ∈ hotBlockLines p, ∀ c ∈ l, c ≠ '\n' := by
  obtain ⟨h1, h2, h3, h4, h5, h6, h7, h8, h9⟩ := h
  intro l hl
  simp only [hotBlockLines, List.mem_cons, List.not_mem_nil, or_false] at hl
  rcases hl with rfl | rfl | rfl | rfl | rfl | rfl | rfl | rfl
  · exact append_nlFree "Title: ".data p.title.data (by decide) h1
  · exact append_nlFree "Score: ".data (toString p.score).data (by decide) h3
  · exact append_nlFree "Comments: ".data (toString p.comment_count).data (by decide) h4
  · exact append_nlFree "Author: ".data (orDeleted p.author_display_name).data (by decide) h6
  · exact append_nlFree "Type: ".data (get_post_type p).data (by decide) (get_post_type_nlFree p)
  · exact append_nlFree "Content: ".data (pyStrOpt (get_content p)).data (by decide) h7
  · exact append_nlFree "Link: https://reddit.com".data p.permalink.data (by decide) h8
  · decide

theorem userPostLines_nlFree (p : Submission) (h : subWF p) :
    ∀ l ∈ userPostLines p, ∀ c ∈ l, c ≠ '\n' := by
  obtain ⟨h1, h2, h3, h4, h5, h6, h7, h8, h9⟩ := h
  intro l hl
  cases hca : p.created_at with
  | none =>
    simp only [userPostLines, hca, List.nil_append, List.cons_append,
      List.mem_cons, List.not_mem_nil, or_false] at hl
    rcases hl with rfl | rfl | rfl | rfl | rfl | rfl | rfl | rfl | rfl
    · exact append_nlFree "Title: ".data p.title.data (by decide) h1
    · exact append_nlFree "Subreddit: r/".data p.subreddit_name.data (by decide) h2
    · exact append_nlFree "Score: ".data (toString p.score).data (by decide) h3
    · exact append_nlFree "Comments: ".data (toString p.comment_count).data (by decide) h4
    · exact append_nlFree "Type: ".data (get_post_type p).data (by decide) (get_post_type_nlFree p)
    · exact append_nlFree "Content: ".data (pyStrOpt (get_content p)).data (by decide) h7
    · exact append_nlFree "Link: https://reddit.com".data p.permalink.data (by decide) h8
    · exact append_nlFree "Post ID: ".data p.id36.data (by decide) h9
    · decide
  | some t =>
    rw [hca] at h5
    simp only [userPostLines, hca, List.cons_append, List.nil_append,
      List.mem_cons, List.not_mem_nil, or_false] at hl
    rcases hl with rfl | rfl | rfl | rfl | rfl | rfl | rfl | rfl | rfl | rfl
    · exact append_nlFree "Title: ".data p.title.data (by decide) h1
    · exact append_nlFree "Subreddit: r/".data p.subreddit_name.data (by decide) h2
    · exact append_nlFree "Score: ".data (toString p.score).data (by decide) h3
    · exact append_nlFree "Comments: ".data (toString p.comment_count).data (by decide) h4
    · exact append_nlFree "Posted: ".data t.data (by decide) h5
    · exact append_nlFree "Type: ".data (get_post_type p).data (by decide) (get_post_type_nlFree p)
    · exact append_nlFree "Content: ".data (pyStrOpt (get_content p)).data (by decide) h7
    · exact append_nlFree "Link: https://reddit.com".data p.permalink.data (by decide) h8
    · exact append_nlFree "Post ID: ".data p.id36.data (by decide) h9
    · decide

theorem splitNl_hotBlock (p : Submission) (h : subWF p) :
    splitNl (hotBlock p).data = hotBlockLines p := by
  rw [hotBlock_data]
  exact splitNl_joinLines _ (by simp [hotBlockLines]) (hotBlockLines_nlFree p h)

theorem splitNl_userPostBlock (p : Submission) (h : subWF p) :
    splitNl (userPostBlock p).data = userPostLines p := by
  rw [userPostBlock_data]
  refine splitNl_joinLines _ ?_ (userPostLines_nlFree p h)
  cases p.created_at <;> simp [userPostLines]

theorem countSepLines_cons_ne (l : List Char) (ls : List (List Char))
    (h : ¬(l = "---".data)) : countSepLines (l :: ls) = countSepLines ls := by
  simp [countSepLines, h]

theorem preLine_ne_sep (pre : String) (x : List Char) (c : Char) (cs : List Char)
    (hpre : pre.data = c :: cs) (hc : c ≠ '-') : ¬(pre.data ++ x = "---".data) := by
  rw [hpre]
  exact line_ne_sep c cs x hc

theorem countSep_hotBlockLines (p : Submission) :
    countSepLines (hotBlockLines p) = 1 := by
  rw [hotBlockLines]
  rw [countSepLines_cons_ne _ _ (preLine_ne_sep "Title: " _ 'T' _ rfl (by decide))]
  rw [countSepLines_cons_ne _ _ (preLine_ne_sep "Score: " _ 'S' _ rfl (by decide))]
  rw [countSepLines_cons_ne _ _ (preLine_ne_sep "Comments: " _ 'C' _ rfl (by decide))]
  rw [countSepLines_cons_ne _ _ (preLine_ne_sep "Author: " _ 'A' _ rfl (by decide))]
  rw [countSepLines_cons_ne _ _ (preLine_ne_sep "Type: " _ 'T' _ rfl (by decide))]
  rw [countSepLines_cons_ne _ _ (preLine_ne_sep "Content: " _ 'C' _ rfl (by decide))]
  rw [countSepLines_cons_ne _ _ (preLine_ne_sep "Link: https://reddit.com" _ 'L' _ rfl (by decide))]
  decide

theorem countSep_userPostLines (p : Submission) :
    countSepLines (userPostLines p) = 1 := by
  cases hca : p.created_at <;> simp [userPostLines, hca, countSepLines]

/-- Splitting a string of the shape `a ++ "\n\n" ++ b` (double-newline
join) gives the lines of `a`, one empty line, then the lines of `b`. -/
theorem splitNl_double (a b : List Char) :
    splitNl (a ++ '\n' :: '\n' :: b) = splitNl a ++ [] :: splitNl b := by
  rw [show ('\n' :: '\n' :: b) = '\n' :: ('\n' :: b) from rfl, splitNl_append_nl]
  simp [splitNl]

/-- The separator-line count of a `"\n\n"`-join is the sum over the joined
strings. -/
theorem sepLineCount_joinSep : ∀ bs : List String,
    sepLineCount (joinSep "\n\n" bs) = (bs.map sepLineCount).sum := by
  intro bs
  induction bs with
  | nil => decide
  | cons b bs ih =>
    cases bs with
    | nil => simp [joinSep]
    | cons m ms =>
      have hdata : (b ++ "\n\n" ++ joinSep "\n\n" (m :: ms)).data =
          b.data ++ '\n' :: '\n' :: (joinSep "\n\n" (m :: ms)).data := by
        simp [String.data_append, nl2Data]
      rw [show joinSep "\n\n" (b :: m :: ms) = b ++ "\n\n" ++ joinSep "\n\n" (m :: ms) from rfl]
      rw [sepLineCount, hdata, splitNl_double, countSepLines_append]
      rw [countSepLines_cons_ne _ _ (by decide)]
      rw [show countSepLines (splitNl b.data) = sepLineCount b from rfl]
      rw [show countSepLines (splitNl (joinSep "\n\n" (m :: ms)).data) =
            sepLineCount (joinSep "\n\n" (m :: ms)) from rfl]
      rw [ih]
      simp

theorem digitChar_ne_nl (n : Nat) : Nat.digitChar n ≠ '\n' := by
  rcases Nat.lt_or_ge n 16 with h | h
  · interval_cases n <;> decide
  · unfold Nat.digitChar
    iterate 16 rw [if_neg (by omega)]
    decide

theorem toDigitsCore_nlFree (b : Nat) : ∀ (fuel n : Nat) (acc : List Char),
    (∀ c ∈ acc, c ≠ '\n') → ∀ c ∈ Nat.toDigitsCore b fuel n acc, c ≠ '\n' := by
  intro fuel
  induction fuel with
  | zero => intro n acc hacc; simpa [Nat.toDigitsCore] using hacc
  | succ fuel ih =>
    intro n acc hacc
    rw [Nat.toDigitsCore]
    split
    · intro c hc
      rcases List.mem_cons.mp hc with rfl | h
      · exact digitChar_ne_nl _
      · exact hacc c h
    · refine ih _ _ ?_
      intro c hc
      rcases List.mem_cons.mp hc with rfl | h
      · exact digitChar_ne_nl _
      · exact hacc c h

/-- The decimal rendering of a natural number contains no newline. -/
theorem natRepr_nlFree (n : Nat) : nlFree (toString n) := by
  intro c hc
  rw [show (toString n).data = Nat.toDigits 10 n from rfl] at hc
  exact toDigitsCore_nlFree 10 (n + 1) n [] (by simp) c hc

theorem fct_spec_aux : ∀ n : Nat,
    (∀ (t : CommentNode) (d : Nat), sizeOf t ≤ n →
       format_comment_tree t d = specCommentNode "-- " t d) ∧
    (∀ (l : List CommentNode) (d : Nat), sizeOf l ≤ n →
       formatChildren l d = specCommentChildren "-- " l d) := by
  intro n
  induction n with
  | zero =>
    refine ⟨?_, ?_⟩
    · intro t d h
      cases t with
      | node c ch => simp at h
    · intro l d h
      cases l with
      | nil => simp [formatChildren, specCommentChildren]
      | cons c cs => simp at h
  | succ n ih =>
    refine ⟨?_, ?_⟩
    · intro t d h
      cases t with
      | node c ch =>
        have hch : sizeOf ch ≤ n := by
          simp at h
          omega
        rw [format_comment_tree, specCommentNode, ih.2 ch (d + 1) hch, commentBlock]
    · intro l d h
      cases l with
      | nil => simp [formatChildren, specCommentChildren]
      | cons c cs =>
        have h1 : sizeOf c ≤ n := by
          simp at h
          omega
        have h2 : sizeOf cs ≤ n := by
          simp at h
          omega
        rw [formatChildren, specCommentChildren, ih.1 c d h1, ih.2 cs d h2]

theorem format_comment_tree_eq_spec (t : CommentNode) (d : Nat) :
    format_comment_tree t d = specCommentNode "-- " t d :=
  (fct_spec_aux (sizeOf t)).1 t d le_rfl

/-- C3: the recursive pre-order depth-first renderer emits, for a node at
depth d, a line prefix of d repetitions of a fixed marker, then author
(fallback "[deleted]"), score, and body each on its own line, then each
child at depth d+1 separated by a blank line; a childless node renders only
its own three lines — amended: the fixed marker is the three-character
string `-- `, not a two-character one. -/
theorem claim_C3 :
    (∀ (t : CommentNode) (d : Nat), format_comment_tree t d = specCommentNode "-- " t d) ∧
    "-- ".length = 3 :=
  ⟨format_comment_tree_eq_spec, rfl⟩

/-- C3 counterexample: no two-character marker reproduces the renderer's
output, already on a single childless node at depth 1 (the actual prefix
`-- ` has three characters). -/
theorem claim_C3_counterexample :
    ¬ ∃ m : String, m.length = 2 ∧
      format_comment_tree (CommentNode.node ⟨some "a", 1, "b"⟩ []) 1 =
        specCommentNode m (CommentNode.node ⟨some "a", 1, "b"⟩ []) 1 := by
  rintro ⟨m, hm, heq⟩
  rw [show format_comment_tree (CommentNode.node ⟨some "a", 1, "b"⟩ []) 1 =
        "-- * Author: a\n--   Score: 1\n--   b\n" from by decide] at heq
  rw [show specCommentNode m (CommentNode.node ⟨some "a", 1, "b"⟩ []) 1 =
        m ++ "" ++ "* Author: " ++ "a" ++ "\n" ++ (m ++ "") ++ "  Score: " ++ "1" ++ "\n" ++
          (m ++ "") ++ "  " ++ "b" ++ "\n" ++ "" from rfl] at heq
  have h := congrArg String.length heq
  rw [show ("-- * Author: a\n--   Score: 1\n--   b\n" : String).length = 36 from rfl] at h
  simp only [String.length_append, hm,
    show ("" : String).length = 0 from rfl,
    show ("* Author: " : String).length = 10 from rfl,
    show ("a" : String).length = 1 from rfl,
    show ("\n" : String).length = 1 from rfl,
    show ("  Score: " : String).length = 9 from rfl,
    show ("1" : String).length = 1 from rfl,
    show ("  " : String).length = 2 from rfl,
    show ("b" : String).length = 1 from rfl] at h
  omega

/-- C4: classification is exhaustive and total — every submission maps to
exactly one of link/text/gallery/unknown, and an unrecognized variant maps
to "unknown" — amended: its content field is Python `None`, which the
f-string renders as the text `None`, not as the empty string. -/
theorem claim_C4 : ∀ s : Submission,
    (get_post_type s = "link" ∨ get_post_type s = "text" ∨
     get_post_type s = "gallery" ∨ get_post_type s = "unknown") ∧
    (s.kind = PostKind.unknownPost →
      get_post_type s = "unknown" ∧ pyStrOpt (get_content s) = "None") := by
  intro s
  constructor
  · cases hk : s.kind <;> simp [get_post_type, hk]
  · intro hk
    simp [get_post_type, get_content, pyStrOpt, hk]

/-- C4 witness: the implication's hypothesis holds at the concrete unknown
submission, and the conclusion is obtained from the theorem there. -/
theorem claim_C4_witness :
    exUnknown.kind = PostKind.unknownPost ∧
    (get_post_type exUnknown = "unknown" ∧ pyStrOpt (get_content exUnknown) = "None") :=
  ⟨rfl, (claim_C4 exUnknown).2 rfl⟩

/-- C4 counterexample: for an unknown-variant submission the emitted
content is the text `None`, not empty — visible in a full
`fetch_reddit_post_content` rendering. -/
theorem claim_C4_counterexample :
    pyStrOpt (get_content exUnknown) = "None" ∧ ("None" : String) ≠ "" ∧
    (fetch_reddit_post_content (fun _ => Except.ok exUnknown)
        (fun _ _ _ _ => Except.ok ⟨[]⟩) "x1" 20 3).1 =
      "Title: T\nScore: 5\nAuthor: alice\nType: unknown\nContent: None\n\nNo comments found." := by
  refine ⟨rfl, by decide, by decide⟩

/-- C5: the content emitted for a Link submission is its permalink (the
link target path the module reports), for a Text submission its body, for
a Gallery submission the string image of its gallery link. -/
theorem claim_C5 : ∀ s : Submission,
    (s.kind = PostKind.linkPost → get_content s = some s.permalink) ∧
    (∀ b, s.kind = PostKind.textPost b → get_content s = some b) ∧
    (∀ g, s.kind = PostKind.galleryPost g → get_content s = some g) := by
  intro s
  refine ⟨?_, ?_, ?_⟩
  · intro hk
    simp [get_content, hk]
  · intro b hk
    simp [get_content, hk]
  · intro g hk
    simp [get_content, hk]

/-- C5 witness: the link case instantiated at a concrete link submission. -/
theorem claim_C5_witness :
    exLink.kind = PostKind.linkPost ∧ get_content exLink = some exLink.permalink :=
  ⟨rfl, (claim_C5 exLink).1 rfl⟩

/-- Truthiness filtering of a list of optional strings equals keeping the
present values and then dropping empty ones. -/
theorem filterMap_truthy : ∀ l : List (Option String),
    (l.filterMap (fun x =>
        match x with
        | none => none
        | some s => if s = "" then none else some s)) =
      (l.filterMap id).filter (fun s => s ≠ "") := by
  intro l
  induction l with
  | nil => rfl
  | cons x xs ih =>
    cases x with
    | none => simpa [List.filterMap_cons] using ih
    | some s =>
      by_cases hs : s = ""
      · simp [List.filterMap_cons, hs, ih]
      · simp [List.filterMap_cons, hs, ih]

/-- C9: the credential loader collects exactly the set and non-empty
values among (client id, client secret, refresh token), preserving that
order, and the external client constructor receives exactly that positional
list; with all three absent it receives the empty list. -/
theorem claim_C9 : ∀ cid secret token : Option String,
    CREDS cid secret token =
      ([cid, secret, token].filterMap id).filter (fun s => s ≠ "") ∧
    CREDS none none none = [] ∧
    (client cid secret token).creds = CREDS cid secret token := by
  intro cid secret token
  exact ⟨filterMap_truthy [cid, secret, token], rfl, rfl⟩

/-- Mapping a function that is constantly 1 on the list sums to the list
length. -/
theorem sum_map_ones {α : Type} (f : α → Nat) : ∀ l : List α,
    (∀ x ∈ l, f x = 1) → (l.map f).sum = l.length := by
  intro l
  induction l with
  | nil => intro _; rfl
  | cons a as ih =>
    intro h
    have ha : f a = 1 := h a (by simp)
    have has : (as.map f).sum = as.length := ih (fun x hx => h x (by simp [hx]))
    simp [ha, has]
    omega

set_option maxRecDepth 4096 in
/-- C1: code-bug evidence — with an invalid sort and a client shaped like
the real library, the operation does not fail fast with the invalid-sort
message: methods 1 and 2 are skipped silently, the search strategy is
invoked with the invalid sort, and its results are rendered. -/
theorem claim_C1 :
    fetch_user_latest_posts exFullClient "alice" 10 "invalid" =
      renderUserPosts "alice" (Except.ok [exText]) ∧
    (fetch_user_latest_posts exFullClient "alice" 10 "invalid").1 ≠
      "Invalid sort method: invalid. Use 'new', 'hot', or 'top'." ∧
    (fetch_user_latest_posts exFullClient "alice" 10 "invalid").1 =
      "Latest 1 posts from u/alice:" ++ "\n\n" ++ userPostBlock exText := by
  refine ⟨rfl, by decide, by decide⟩

/-- C2: every fault is caught at the operation boundary and converted to an
"An error occurred ...: <message>" text, and no operation propagates —
amended: only `fetch_user_latest_posts` logs the identifying argument;
`fetch_reddit_hot_threads` logs without it, and `fetch_reddit_post_content`
does not log at all. -/
theorem claim_C2 : ∀ (username subreddit post_id msg sort : String) (limit cl cd : Nat),
    validSort sort →
    (fetch_user_latest_posts
        ⟨some (constPath (Except.ok (Except.error (PyErr.other msg)))), none, none⟩
        username limit sort =
      ("An error occurred while fetching posts for " ++ username ++ ": " ++ msg,
       ["An error occurred while fetching posts for " ++ username ++ ": " ++ msg])) ∧
    (fetch_reddit_hot_threads (fun _ _ => Except.error (PyErr.other msg)) subreddit limit =
      ("An error occurred: " ++ msg, ["An error occurred: " ++ msg])) ∧
    (∀ ft, fetch_reddit_post_content (fun _ => Except.error (PyErr.other msg)) ft post_id cl cd =
      ("An error occurred: " ++ msg, [])) ∧
    (∀ s : Submission,
      fetch_reddit_post_content (fun _ => Except.ok s)
          (fun _ _ _ _ => Except.error (PyErr.other msg)) post_id cl cd =
        ("An error occurred: " ++ msg, [])) := by
  intro username subreddit post_id msg sort limit cl cd hs
  rcases hs with h | h | h <;> subst h <;>
    exact ⟨rfl, rfl, fun ft => rfl, fun s => rfl⟩

/-- C2 witness: the user-posts conjunct instantiated at concrete inputs. -/
theorem claim_C2_witness :
    validSort "new" ∧
    fetch_user_latest_posts
        ⟨some (constPath (Except.ok (Except.error (PyErr.other "x")))), none, none⟩
        "bob" 10 "new" =
      ("An error occurred while fetching posts for bob: x",
       ["An error occurred while fetching posts for bob: x"]) := by
  refine ⟨Or.inl rfl, ?_⟩
  rw [(claim_C2 "bob" "r" "p" "x" "new" 10 20 3 (Or.inl rfl)).1]
  decide

/-- C2 counterexample: a fault inside `fetch_reddit_post_content` is
converted to the error text but logs nothing, and a fault inside
`fetch_reddit_hot_threads` is logged without the identifying subreddit. -/
theorem claim_C2_counterexample :
    (fetch_reddit_post_content (fun _ => Except.error (PyErr.other "boom"))
        (fun _ _ _ _ => Except.ok ⟨[]⟩) "abc" 20 3).1 = "An error occurred: boom" ∧
    (fetch_reddit_post_content (fun _ => Except.error (PyErr.other "boom"))
        (fun _ _ _ _ => Except.ok ⟨[]⟩) "abc" 20 3).2 = [] ∧
    (fetch_reddit_hot_threads (fun _ _ => Except.error (PyErr.other "boom")) "python" 10).2 =
      ["An error occurred: boom"] :=
  ⟨rfl, rfl, rfl⟩

/-- C6: with a valid sort, when the `user` and `account` access paths both
raise capability-not-found, the search strategy is attempted (the result is
exactly the rendering of whatever the search call produces), and when all
three strategies are unavailable the operation returns the
unrecognized-API text instead of propagating a fault. -/
theorem claim_C6 : ∀ (username : String) (limit : Nat) (sort : String), validSort sort →
    (fetch_user_latest_posts ⟨none, none, none⟩ username limit sort = (unableMsg, [])) ∧
    (∀ (f : SearchFn) (it : IterT), f "all" ("author:" ++ username) sort limit = Except.ok it →
      fetch_user_latest_posts ⟨none, none, some f⟩ username limit sort =
        renderUserPosts username it) ∧
    (∀ (f : SearchFn) (m : String),
      f "all" ("author:" ++ username) sort limit = Except.error (PyErr.attributeError m) →
      fetch_user_latest_posts ⟨none, none, some f⟩ username limit sort = (unableMsg, [])) := by
  intro username limit sort hs
  rcases hs with h | h | h <;> subst h <;>
    refine ⟨rfl, ?_, ?_⟩ <;>
    · intro f x hf
      simp [fetch_user_latest_posts, tryMethod, hf, afterStrategies]

/-- C6 witness: the all-unavailable conjunct at concrete inputs. -/
theorem claim_C6_witness :
    validSort "new" ∧
    fetch_user_latest_posts ⟨none, none, none⟩ "bob" 10 "new" = (unableMsg, []) :=
  ⟨Or.inl rfl, (claim_C6 "bob" 10 "new" (Or.inl rfl)).1⟩

/-- C10: the fallback is triggered only by `AttributeError` — any other
exception raised while invoking strategy (1) or (2) reaches the outermost
handler and yields the logged error text, whatever the remaining strategies
would have returned; an `AttributeError` instead moves on to the next
strategy. -/
theorem claim_C10 : ∀ (username : String) (limit : Nat) (sort : String), validSort sort →
    (∀ (msg : String) (acct : Option SubmissionsPath) (srch : Option SearchFn),
      fetch_user_latest_posts ⟨some (constPath (Except.error (PyErr.other msg))), acct, srch⟩
          username limit sort =
        ("An error occurred while fetching posts for " ++ username ++ ": " ++ msg,
         ["An error occurred while fetching posts for " ++ username ++ ": " ++ msg])) ∧
    (∀ (msg : String) (srch : Option SearchFn),
      fetch_user_latest_posts ⟨none, some (constPath (Except.error (PyErr.other msg))), srch⟩
          username limit sort =
        ("An error occurred while fetching posts for " ++ username ++ ": " ++ msg,
         ["An error occurred while fetching posts for " ++ username ++ ": " ++ msg])) ∧
    (∀ (am : String) (subs : List Submission) (srch : Option SearchFn),
      fetch_user_latest_posts
          ⟨some (constPath (Except.error (PyErr.attributeError am))),
           some (constPath (Except.ok (Except.ok subs))), srch⟩ username limit sort =
        renderUserPosts username (Except.ok subs)) := by
  intro username limit sort hs
  rcases hs with h | h | h <;> subst h <;>
    exact ⟨fun msg acct srch => rfl, fun msg srch => rfl, fun am subs srch => rfl⟩

/-- C10 witness: the strategy-1 non-AttributeError conjunct at concrete
inputs. -/
theorem claim_C10_witness :
    validSort "new" ∧
    fetch_user_latest_posts
        ⟨some (constPath (Except.error (PyErr.other "ty"))), none, none⟩ "bob" 10 "new" =
      ("An error occurred while fetching posts for bob: ty",
       ["An error occurred while fetching posts for bob: ty"]) := by
  refine ⟨Or.inl rfl, ?_⟩
  rw [(claim_C10 "bob" 10 "new" (Or.inl rfl)).1 "ty" none none]
  decide

/-- The header line of a non-empty user-posts result contains no newline
and is not a separator line. -/
theorem sepLineCount_header (n : Nat) (username : String) (hu : nlFree username) :
    sepLineCount ("Latest " ++ toString n ++ " posts from u/" ++ username ++ ":") = 0 := by
  have hd : ("Latest " ++ toString n ++ " posts from u/" ++ username ++ ":").data =
      "Latest ".data ++ ((toString n).data ++ (" posts from u/".data ++
        (username.data ++ ":".data))) := by
    simp [String.data_append]
  have hnl : ∀ c ∈ ("Latest " ++ toString n ++ " posts from u/" ++ username ++ ":").data,
      c ≠ '\n' := by
    rw [hd]
    refine append_nlFree _ _ (by decide) ?_
    refine append_nlFree _ _ (natRepr_nlFree n) ?_
    refine append_nlFree _ _ (by decide) ?_
    exact append_nlFree _ _ hu (by decide)
  have hne : ¬(("Latest " ++ toString n ++ " posts from u/" ++ username ++ ":").data =
      "---".data) := by
    rw [hd, show ("Latest ".data : List Char) = 'L' :: "atest ".data from rfl]
    exact line_ne_sep 'L' _ _ (by decide)
  rw [sepLineCount, splitNl_nlFree _ hnl, countSepLines_cons_ne _ _ hne]
  rfl

/-- C8: with zero results the hot-threads result is exactly the empty
string; with k results it contains exactly k separator lines — amended:
each block carries title, score, comment count, author (fallback
"[deleted]"), type, content and link, omitting not only post id and
creation time but also the subreddit of the 4.2 block. -/
theorem claim_C8 : ∀ (subs : List Submission) (subreddit : String) (limit : Nat),
    (∀ p ∈ subs, subWF p) →
    (subs = [] →
      fetch_reddit_hot_threads (fun _ _ => Except.ok subs) subreddit limit = ("", [])) ∧
    sepLineCount (fetch_reddit_hot_threads (fun _ _ => Except.ok subs) subreddit limit).1 =
      subs.length ∧
    (∀ p, subWF p → splitNl (hotBlock p).data = hotBlockLines p) := by
  intro subs subreddit limit hwf
  refine ⟨?_, ?_, fun p hp => splitNl_hotBlock p hp⟩
  · rintro rfl
    rfl
  · show sepLineCount (joinSep "\n\n" (subs.map hotBlock)) = subs.length
    rw [sepLineCount_joinSep, List.map_map]
    rw [sum_map_ones (sepLineCount ∘ hotBlock) subs ?_]
    intro p hp
    simp only [Function.comp_apply]
    rw [sepLineCount, splitNl_hotBlock p (hwf p hp), countSep_hotBlockLines]

set_option maxHeartbeats 2000000 in
set_option maxRecDepth 16384 in
/-- C8 witness: one well-formed submission yields exactly one separator
line. -/
theorem claim_C8_witness :
    (∀ p ∈ [exText], subWF p) ∧
    sepLineCount (fetch_reddit_hot_threads (fun _ _ => Except.ok [exText]) "test" 10).1 = 1 :=
  ⟨by decide, (claim_C8 [exText] "test" 10 (by decide)).2.1⟩

set_option maxHeartbeats 4000000 in
set_option maxRecDepth 16384 in
/-- C8 counterexample: the hot-threads block of a concrete submission
contains no subreddit field at all, while the 4.2 block of the same
submission does — so the blocks do not carry all 4.2 fields minus only
post id and creation time. -/
theorem claim_C8_counterexample :
    ¬("Subreddit".data <:+:
        (fetch_reddit_hot_threads (fun _ _ => Except.ok [exText]) "test" 10).1.data) ∧
    "Subreddit".data <:+: (userPostBlock exText).data := by
  constructor
  · decide
  · decide

/-- C7: with a valid sort and no fault, zero yielded posts give exactly
the "No posts found for user: <username>" string, and k ≥ 1 posts give a
result starting with "Latest k posts from u/<username>:" containing
exactly one separator line per post. -/
theorem claim_C7 : ∀ (username sort : String) (limit : Nat) (subs : List Submission),
    validSort sort → nlFree username → (∀ p ∈ subs, subWF p) →
    (subs = [] →
      fetch_user_latest_posts (mkUserClient subs) username limit sort =
        ("No posts found for user: " ++ username, [])) ∧
    (subs ≠ [] →
      (∃ rest, (fetch_user_latest_posts (mkUserClient subs) username limit sort).1 =
        "Latest " ++ toString subs.length ++ " posts from u/" ++ username ++ ":" ++ rest) ∧
      sepLineCount (fetch_user_latest_posts (mkUserClient subs) username limit sort).1 =
        subs.length) := by
  intro username sort limit subs hvs hu hwf
  have hred : fetch_user_latest_posts (mkUserClient subs) username limit sort =
      renderUserPosts username (Except.ok subs) := by
    rcases hvs with h | h | h <;> subst h <;> rfl
  refine ⟨?_, ?_⟩
  · rintro rfl
    rw [hred]
    rfl
  · intro hne
    rw [hred]
    cases subs with
    | nil => exact absurd rfl hne
    | cons a as =>
      have hrender : renderUserPosts username (Except.ok (a :: as)) =
          ("Latest " ++ toString (a :: as).length ++ " posts from u/" ++ username ++ ":" ++
             "\n\n" ++ joinSep "\n\n" ((a :: as).map userPostBlock), []) := rfl
      rw [hrender]
      constructor
      · refine ⟨"\n\n" ++ joinSep "\n\n" ((a :: as).map userPostBlock), ?_⟩
        exact String.append_assoc _ "\n\n" _
      · show sepLineCount (joinSep "\n\n"
            (("Latest " ++ toString (a :: as).length ++ " posts from u/" ++ username ++ ":") ::
              (a :: as).map userPostBlock)) = (a :: as).length
        rw [sepLineCount_joinSep, List.map_cons, List.sum_cons,
          sepLineCount_header _ _ hu, List.map_map]
        rw [sum_map_ones (sepLineCount ∘ userPostBlock) (a :: as) ?_]
        · simp
        · intro p hp
          simp only [Function.comp_apply]
          rw [sepLineCount, splitNl_userPostBlock p (hwf p hp), countSep_userPostLines]

set_option maxHeartbeats 2000000 in
set_option maxRecDepth 16384 in
/-- C7 witness: one well-formed post for a newline-free username. -/
theorem claim_C7_witness :
    validSort "new" ∧ nlFree "alice" ∧ (∀ p ∈ [exText], subWF p) ∧
    sepLineCount (fetch_user_latest_posts (mkUserClient [exText]) "alice" 10 "new").1 = 1 := by
  refine ⟨Or.inl rfl, by decide, by decide, ?_⟩
  exact ((claim_C7 "alice" "new" 10 [exText] (Or.inl rfl) (by decide) (by decide)).2
    (by simp)).2
